import Mathlib

/-!
Verification of the x402solana payment-protocol corpus.

The repository mixes documentation with embedded TypeScript/JavaScript
fragments.  This file gives a shallow embedding of the fragments that the
claims depend on, plus spec-modelled definitions for the protocol core
(Verifier, Replay Guard, Settlement Engine) that the documents describe but
never implement.  Machine numbers that can be fractional in JavaScript
(token amounts) are modelled as `Rat`; timestamps and integer token units as
`Nat`; byte strings as `List Nat`.
-/

/-! ## usePagination hook (frontend, `usePagination.ts`) -/

/-- State held by the `usePagination` hook: `page`, `pageSize` and the
`total` item count. -/
structure PaginationState where
  page : Nat
  pageSize : Nat
  total : Nat
deriving DecidableEq

/-- `Math.ceil(total / pageSize)`.  For a positive `pageSize` this is the
usual ceiling division; the degenerate `pageSize = 0` (JavaScript `Infinity`)
is mapped to `0`. -/
def totalPages (s : PaginationState) : Nat :=
  if s.pageSize = 0 then 0 else (s.total + s.pageSize - 1) / s.pageSize

/-- `page < totalPages`. -/
def hasNextPage (s : PaginationState) : Bool :=
  decide (s.page < totalPages s)

/-- `page > 1`. -/
def hasPreviousPage (s : PaginationState) : Bool :=
  decide (1 < s.page)

/-- `nextPage`: increment `page` only when `hasNextPage`. -/
def nextPage (s : PaginationState) : PaginationState :=
  if hasNextPage s then { s with page := s.page + 1 } else s

/-- `previousPage`: decrement `page` only when `hasPreviousPage`. -/
def previousPage (s : PaginationState) : PaginationState :=
  if hasPreviousPage s then { s with page := s.page - 1 } else s

/-- `goToPage(newPage)`: jump only when `1 <= newPage <= totalPages`. -/
def goToPage (s : PaginationState) (newPage : Nat) : PaginationState :=
  if 1 ≤ newPage ∧ newPage ≤ totalPages s then { s with page := newPage } else s

/-- `changePageSize(newPageSize)`: set the size and reset `page` to 1. -/
def changePageSize (s : PaginationState) (newPageSize : Nat) : PaginationState :=
  { s with pageSize := newPageSize, page := 1 }

/-- `updateTotal(newTotal)`. -/
def updateTotal (s : PaginationState) (newTotal : Nat) : PaginationState :=
  { s with total := newTotal }

/-! ## SolPay402 SDK client (`solpay402-sdk.md`) and backend types
(`src/README.md`, identical `types.ts` shapes) -/

/-- `PaymentRequest` from the SDK / backend `types.ts`. -/
structure PaymentRequest where
  amount : Rat
  token : String
  recipient : String
  paymentId : String
  expiresAt : Nat
  description : String
deriving DecidableEq

/-- `X402PaymentHeader` from `types.ts`. -/
structure X402PaymentHeader where
  version : String
  paymentId : String
  amount : Rat
  token : String
  recipient : String
  transaction : String
  signature : String
deriving DecidableEq

/-- `SolPay402ClientOptions`.  `none` models an absent field. -/
structure SolPay402ClientOptions where
  autoApprove : Bool
  maxPaymentAmount : Option Rat
  preferredToken : String

/-- The effective cap set by the constructor: it first computes
`maxPaymentAmount: options.maxPaymentAmount || 1` and then spreads
`...options` last, so any supplied value — falsy `0` included — overrides
the computed default; only an absent field falls back to `1`. -/
def resolvedMaxPaymentAmount (opts : SolPay402ClientOptions) : Rat :=
  match opts.maxPaymentAmount with
  | none => 1
  | some m => m

/-- `requestUserApproval` resolves to `true` unconditionally in the source. -/
def requestUserApproval (_pr : PaymentRequest) : Bool :=
  true

/-- `createPaymentHeader` from the SDK `utils.ts`: signs the concatenated
message and assembles the header.  `sign` abstracts `wallet.signMessage`. -/
def createPaymentHeader (sign : String → String) (paymentId : String)
    (amount : Rat) (token recipient transaction : String) : X402PaymentHeader :=
  { version := "1.0"
    paymentId := paymentId
    amount := amount
    token := token
    recipient := recipient
    transaction := transaction
    signature := sign (paymentId ++ ":" ++ toString amount ++ ":" ++ token ++
      ":" ++ recipient ++ ":" ++ transaction) }

/-- `SolPay402Client.createPayment`: build the (placeholder) transaction,
sign it, and produce the payment header.  `serializedTx` abstracts the
serialized signed transaction. -/
def createPayment (sign : String → String) (serializedTx : String)
    (pr : PaymentRequest) : X402PaymentHeader :=
  createPaymentHeader sign pr.paymentId pr.amount pr.token pr.recipient serializedTx

/-- Outcome of one call to the fetch function returned by
`createFetchWithPayment`:  the original response is passed through, an error
is thrown, or the request is retried carrying an `X-PAYMENT` header.  A
payment is created/signed exactly in the `paidRetry` case. -/
inductive FetchResult where
  | response (status : Nat)
  | thrown (message : String)
  | paidRetry (header : X402PaymentHeader)
deriving DecidableEq

/-- One invocation of the fetch wrapper from `createFetchWithPayment`,
applied to a response with the given `status` and (already parsed)
`X-PAYMENT-REQUEST` header.  Mirrors the source: on 402 with a payment
request, throw when `amount > maxPaymentAmount`, otherwise seek approval
(`requestUserApproval`, constant `true`), create the payment and retry. -/
def fetchWithPayment (opts : SolPay402ClientOptions) (sign : String → String)
    (serializedTx : String) (status : Nat)
    (paymentRequestHeader : Option PaymentRequest) : FetchResult :=
  if status = 402 then
    match paymentRequestHeader with
    | some pr =>
      if resolvedMaxPaymentAmount opts < pr.amount then
        .thrown ("Payment failed: Payment amount " ++ toString pr.amount ++
          " exceeds maximum allowed " ++ toString (resolvedMaxPaymentAmount opts))
      else if opts.autoApprove || requestUserApproval pr then
        .paidRetry (createPayment sign serializedTx pr)
      else
        .thrown "Payment failed: Payment not approved by user"
    | none => .response status
  else .response status

/-- Discriminator: did the fetch wrapper throw? -/
def isThrown : FetchResult → Bool
  | .thrown _ => true
  | _ => false

/-- Discriminator: did the fetch wrapper create a payment and retry? -/
def isPaidRetry : FetchResult → Bool
  | .paidRetry _ => true
  | _ => false

/-! ## Solana payment middleware (`solpayx402.md`, `middleware/solana-payment.js`) -/

/-- The configured USDC mint address. -/
def USDC_MINT_ADDRESS : String :=
  "4zMMC9srt5Ri5X14GAgXhaHii3GnPAEERYPJgZJDncDU"

/-- One entry of `transaction.meta.postTokenBalances`. -/
structure TokenBalance where
  mint : String
  owner : String
  uiAmount : Rat
deriving DecidableEq

/-- The part of a fetched Solana transaction the middleware inspects:
`meta.err` (modelled as a flag) and `meta.postTokenBalances`. -/
structure TransactionMeta where
  err : Bool
  postTokenBalances : List TokenBalance
deriving DecidableEq

/-- `verifyPayment(signature, expectedAmount, receiver)` from
`middleware/solana-payment.js`: fetch the transaction, fail if missing or
errored, find a post-token balance whose mint is USDC, and fail if its
`uiAmount` is below `expectedAmount`.  `getTransaction` abstracts
`connection.getTransaction`.  Note the source never reads `receiver`. -/
def verifyPayment (getTransaction : String → Option TransactionMeta)
    (signature : String) (expectedAmount : Rat) (receiver : String) :
    Except String Bool :=
  match getTransaction signature with
  | none => .error "transaction failed or not found"
  | some transaction =>
    if transaction.err then .error "transaction failed or not found"
    else
      match transaction.postTokenBalances.find?
          (fun balance => balance.mint == USDC_MINT_ADDRESS) with
      | none => .error "insufficient payment amount"
      | some tokenTransfer =>
        if tokenTransfer.uiAmount < expectedAmount then
          .error "insufficient payment amount"
        else .ok true

/-- A confirmed transaction whose single USDC post-token balance belongs to
an address other than the merchant. -/
def misdirectedMeta : TransactionMeta :=
  { err := false
    postTokenBalances :=
      [{ mint := USDC_MINT_ADDRESS, owner := "attacker",
         uiAmount := Rat.divInt 1 4 }] }

/-! ## SolPay402 backend (`src/README.md`): 402 challenge and facilitator -/

/-- Decimal digits of `n`, least significant first, by structural recursion
(first argument is fuel, initially `n` itself). -/
def decDigitsAux : Nat → Nat → List Nat
  | 0, _ => []
  | _ + 1, 0 => []
  | fuel + 1, n + 1 => (n + 1) % 10 :: decDigitsAux fuel ((n + 1) / 10)

/-- Decimal digits of `n`, least significant first. -/
def decDigits (n : Nat) : List Nat :=
  decDigitsAux n n

/-- `Number.prototype.toString()` for a timestamp: the decimal digit string. -/
def decimalRepr (n : Nat) : String :=
  String.mk ((decDigits n).reverse.map Nat.digitChar)

/-- `config.paymentExpiryMs = 5 * 60 * 1000`. -/
def paymentExpiryMs : Nat := 5 * 60 * 1000

/-- The 402 challenge built by `paymentRequiredMiddleware` when no
`x-payment` header is present: `paymentId` is `Date.now().toString()` and
`expiresAt` is `Date.now() + config.paymentExpiryMs`. -/
def paymentRequiredChallenge (amount : Rat) (token merchantAccount description : String)
    (now : Nat) : PaymentRequest :=
  { amount := amount
    token := token
    recipient := merchantAccount
    paymentId := decimalRepr now
    expiresAt := now + paymentExpiryMs
    description := description }

/-- A transaction instruction as inspected by the facilitator:
`programId` and the account keys. -/
structure Instruction where
  programId : String
  keys : List String
deriving DecidableEq

/-- A decoded Solana transaction (the facilitator only reads
`instructions`). -/
structure DecodedTransaction where
  instructions : List Instruction
deriving DecidableEq

/-- The SPL token program id. -/
def TOKEN_PROGRAM_ID : String :=
  "TokenkegQfeZyiNwAJbNbGKPFXCWuBvf9Ss623VQ5DA"

/-- `PaymentFacilitator.verifyTransaction`: some instruction is a token
program instruction one of whose keys is the recipient named in the header. -/
def verifyTransaction (transaction : DecodedTransaction)
    (header : X402PaymentHeader) : Bool :=
  transaction.instructions.any (fun ix =>
    ix.programId == TOKEN_PROGRAM_ID &&
      ix.keys.any (fun key => key == header.recipient))

/-- `PaymentTransaction` from `types.ts`. -/
structure PaymentTransaction where
  signature : String
  amount : Rat
  token : String
  recipient : String
  blockTime : Nat
deriving DecidableEq

/-- `PaymentStatus` from `types.ts`. -/
structure PaymentStatus where
  success : Bool
  transaction : Option PaymentTransaction
  error : Option String
  paymentId : String
deriving DecidableEq

/-- `PaymentFacilitator.verifyAndSettlePayment`: decode the transaction from
the header, verify it, and only then send it to the ledger and confirm.
`decodeTransaction` abstracts `Transaction.from` (`none` = decoding threw),
`sendTransaction` abstracts `connection.sendRawTransaction` (`none` = the
send threw).  The second component records every transaction handed to the
ledger, so "settlement was invoked" is observable. -/
def verifyAndSettlePayment (decodeTransaction : String → Option DecodedTransaction)
    (sendTransaction : DecodedTransaction → Option String) (now : Nat)
    (header : X402PaymentHeader) : PaymentStatus × List DecodedTransaction :=
  match decodeTransaction header.transaction with
  | none =>
    ({ success := false, transaction := none,
       error := some "Invalid transaction encoding",
       paymentId := header.paymentId }, [])
  | some transaction =>
    if verifyTransaction transaction header then
      match sendTransaction transaction with
      | some signature =>
        ({ success := true
           transaction := some
             { signature := signature, amount := header.amount,
               token := header.token, recipient := header.recipient,
               blockTime := now }
           error := none
           paymentId := header.paymentId }, [transaction])
      | none =>
        ({ success := false, transaction := none,
           error := some "Transaction sending failed",
           paymentId := header.paymentId }, [transaction])
    else
      ({ success := false, transaction := none,
         error := some "Invalid transaction",
         paymentId := header.paymentId }, [])

/-! ## Spec-modelled protocol core

The Verifier (§4.2), Replay Guard (§4.5) and Settlement Engine (§4.3) are
described by the documents but have no implementation in the repository; the
definitions below follow the words of the specification. -/

/-- Byte strings (UTF-8 code units) used for the transport-level data model. -/
abbrev ByteStr := List Nat

/-- Code units of an ASCII Lean string, for writing concrete values. -/
def strBytes (s : String) : ByteStr :=
  s.data.map Char.toNat

/-- Modelled from the spec: `ReplayRecord` maps a consumed `paymentId` to
`{consumedAt, transactionReference}` (§3). -/
structure ReplayRecord where
  consumedAt : Nat
  transactionReference : String
deriving DecidableEq

/-- Modelled from the spec: the backing store of the Replay Guard, holding of consumed
payment identifiers. -/
abbrev ReplayStore := List (String × ReplayRecord)

/-- Modelled from the spec: `hasConsumed(paymentId)` (§4.5). -/
def hasConsumed (store : ReplayStore) (paymentId : String) : Bool :=
  (store.lookup paymentId).isSome

/-- Modelled from the spec: `tryConsume(paymentId, transactionReference)`,
an atomic test-and-set: insert and return `true` iff the `paymentId` was not
yet consumed; a second insertion attempt fails deterministically and leaves
the store unchanged (§3, §4.5). -/
def tryConsume (store : ReplayStore) (paymentId transactionReference : String)
    (now : Nat) : Bool × ReplayStore :=
  if hasConsumed store paymentId then (false, store)
  else (true, (paymentId, ⟨now, transactionReference⟩) :: store)

/-- Modelled from the spec: `SettlementReceipt` (§3). -/
structure SettlementReceipt where
  success : Bool
  transactionReference : Option String
  networkId : String
  confirmedAt : Option Nat
  error : Option String
deriving DecidableEq

/-- Modelled from the spec: what the ledger did with a submitted transaction
before `maxTimeoutSeconds` elapsed (§4.3): finality, timeout without
finality, or ledger-level rejection. -/
inductive LedgerOutcome where
  | finalized (transactionReference : String) (confirmedAt : Nat)
  | timeout
  | rejected
deriving DecidableEq

/-- Modelled from the spec: `settle(payload)` (§4.3).  On finality the
Replay Guard is marked consumed atomically with recording the receipt; on
timeout `success=false, error=SettlementTimeout` with the Replay Guard
untouched; on ledger-level rejection `success=false,
error=SettlementRejected` with the Replay Guard untouched.  A finalized
outcome whose `paymentId` was already consumed is rejected with
`ReplayDetected` (P1). -/
def settle (store : ReplayStore) (networkId paymentId : String) (now : Nat)
    (outcome : LedgerOutcome) : SettlementReceipt × ReplayStore :=
  match outcome with
  | .finalized ref confirmedAt =>
    match tryConsume store paymentId ref now with
    | (true, store2) =>
      ({ success := true, transactionReference := some ref,
         networkId := networkId, confirmedAt := some confirmedAt,
         error := none }, store2)
    | (false, store2) =>
      ({ success := false, transactionReference := none,
         networkId := networkId, confirmedAt := none,
         error := some "ReplayDetected" }, store2)
  | .timeout =>
    ({ success := false, transactionReference := none,
       networkId := networkId, confirmedAt := none,
       error := some "SettlementTimeout" }, store)
  | .rejected =>
    ({ success := false, transactionReference := none,
       networkId := networkId, confirmedAt := none,
       error := some "SettlementRejected" }, store)

/-- A sequence of settle attempts for one `paymentId`, threading the Replay
Guard store; returns the receipts in order. -/
def settleRun (store : ReplayStore) (networkId paymentId : String) :
    List (LedgerOutcome × Nat) → List SettlementReceipt × ReplayStore
  | [] => ([], store)
  | (outcome, now) :: rest =>
    match settle store networkId paymentId now outcome with
    | (receipt, store2) =>
      match settleRun store2 networkId paymentId rest with
      | (receipts, store3) => (receipt :: receipts, store3)

/-- Modelled from the spec: `PaymentRequirements` (§3), with byte-string
fields and integer amounts/timestamps. -/
structure PaymentRequirements where
  scheme : ByteStr
  network : ByteStr
  asset : ByteStr
  payTo : ByteStr
  maxAmountRequired : Nat
  resource : ByteStr
  description : ByteStr
  mimeType : ByteStr
  maxTimeoutSeconds : Nat
  paymentId : ByteStr
  expiresAt : Nat
deriving DecidableEq

/-- Modelled from the spec: `PaymentPayload` (§3, §6): `version, paymentId,
scheme, network, transaction, signature`. -/
structure PaymentPayload where
  version : ByteStr
  paymentId : ByteStr
  scheme : ByteStr
  network : ByteStr
  transaction : ByteStr
  signature : ByteStr
deriving DecidableEq

/-- Modelled from the spec: the transfer instruction extracted by the
structural decode of `payload.transaction` (§4.2 check 4). -/
structure DecodedTransfer where
  recipient : ByteStr
  asset : ByteStr
  amount : Nat
deriving DecidableEq

/-- Failure reasons of the Verifier (§4.2). -/
inductive VerifyReason where
  | MismatchedPaymentId
  | Expired
  | UnsupportedScheme
  | InsufficientOrMisdirectedPayment
  | InvalidSignature
  | ReplayDetected
deriving DecidableEq

/-- `verify(payload, requirements) → {valid, reason?}`. -/
inductive VerifyResult where
  | valid
  | invalid (reason : VerifyReason)
deriving DecidableEq

/-- Modelled from the spec: `verify(payload, requirements)` (§4.2), checks
in order with short-circuit on first failure: (1) paymentId match, (2)
`now < expiresAt`, (3) `payload.network == requirements.network` and
`payload.scheme == requirements.network` (sic), (4) structural decode with
a transfer to `payTo` in `asset` of amount `≥ maxAmountRequired`, (5)
signature validity, (6) replay check.  `decodeTx` abstracts the structural
decode, `validSignature` the signature check and `consumed` the Replay
Guard check `hasConsumed`. -/
def verify (decodeTx : ByteStr → Option DecodedTransfer)
    (validSignature : PaymentPayload → Bool) (consumed : ByteStr → Bool)
    (now : Nat) (payload : PaymentPayload) (req : PaymentRequirements) :
    VerifyResult :=
  if payload.paymentId = req.paymentId then
    if now < req.expiresAt then
      if payload.network = req.network ∧ payload.scheme = req.network then
        match decodeTx payload.transaction with
        | some t =>
          if t.recipient = req.payTo ∧ t.asset = req.asset ∧
              req.maxAmountRequired ≤ t.amount then
            if validSignature payload then
              if consumed payload.paymentId then .invalid .ReplayDetected
              else .valid
            else .invalid .InvalidSignature
          else .invalid .InsufficientOrMisdirectedPayment
        | none => .invalid .InsufficientOrMisdirectedPayment
      else .invalid .UnsupportedScheme
    else .invalid .Expired
  else .invalid .MismatchedPaymentId

/-- Check 4 passes: the transaction decodes to a transfer to the right
recipient, in the right asset, of a sufficient amount. -/
def TransferOk (decodeTx : ByteStr → Option DecodedTransfer)
    (payload : PaymentPayload) (req : PaymentRequirements) : Prop :=
  ∃ t, decodeTx payload.transaction = some t ∧ t.recipient = req.payTo ∧
    t.asset = req.asset ∧ req.maxAmountRequired ≤ t.amount

/-! ## Payment Payload codec (`src/unnamed/part_000`)

The client sends `X-PAYMENT: Buffer.from(JSON.stringify(paymentPayload)).toString("base64")`
and the `/verify` endpoint runs
`JSON.parse(Buffer.from(paymentHeader, "base64").toString("utf8"))`.
The JSON layer is modelled at the byte level: a canonical object serializer
for the six string fields of the payload, and a parser that unescapes strings,
ignores unknown fields and validates the required ones. -/

/-- JSON string-body escaping: quote (34) and backslash (92) are prefixed
with a backslash. -/
def escapeBytes : List Nat → List Nat
  | [] => []
  | c :: rest =>
    if c = 34 ∨ c = 92 then 92 :: c :: escapeBytes rest
    else c :: escapeBytes rest

/-- A JSON string literal: quote, escaped body, quote. -/
def serializeStr (s : ByteStr) : List Nat :=
  34 :: (escapeBytes s ++ [34])

/-- One `"key":"value"` member. -/
def serializePair (k v : ByteStr) : List Nat :=
  serializeStr k ++ 58 :: serializeStr v

/-- Comma-separated members (the serializer never emits an empty object). -/
def serializePairs : List (ByteStr × ByteStr) → List Nat
  | [] => []
  | [(k, v)] => serializePair k v
  | (k, v) :: p :: ps => serializePair k v ++ 44 :: serializePairs (p :: ps)

/-- The members of the payload object, in `JSON.stringify` key order. -/
def payloadFields (p : PaymentPayload) : List (ByteStr × ByteStr) :=
  [(strBytes "version", p.version), (strBytes "paymentId", p.paymentId),
   (strBytes "scheme", p.scheme), (strBytes "network", p.network),
   (strBytes "transaction", p.transaction), (strBytes "signature", p.signature)]

/-- `JSON.stringify(paymentPayload)` as bytes: `{` members `}`. -/
def serializePayload (p : PaymentPayload) : List Nat :=
  123 :: (serializePairs (payloadFields p) ++ [125])

/-- Parse a string-literal body up to the closing quote, undoing
`escapeBytes`; returns the body and the unconsumed suffix. -/
def parseStrBody : List Nat → Option (ByteStr × List Nat)
  | [] => none
  | 34 :: rest => some ([], rest)
  | [92] => none
  | 92 :: d :: rest2 =>
    match parseStrBody rest2 with
    | none => none
    | some (s, r) => some (d :: s, r)
  | c :: rest =>
    match parseStrBody rest with
    | none => none
    | some (s, r) => some (c :: s, r)

/-- Parse a JSON string literal. -/
def parseStr : List Nat → Option (ByteStr × List Nat)
  | [] => none
  | c :: rest => if c = 34 then parseStrBody rest else none

/-- Parse one `"key":"value"` member. -/
def parsePair (input : List Nat) : Option ((ByteStr × ByteStr) × List Nat) :=
  match parseStr input with
  | none => none
  | some (k, r1) =>
    match r1 with
    | [] => none
    | c :: r2 =>
      if c = 58 then
        match parseStr r2 with
        | none => none
        | some (v, r3) => some ((k, v), r3)
      else none

/-- Parse the members of an object up to and including the closing brace
(fuel-bounded; the caller supplies enough fuel for the input). -/
def parsePairs : Nat → List Nat → Option (List (ByteStr × ByteStr) × List Nat)
  | 0, _ => none
  | fuel + 1, input =>
    match parsePair input with
    | none => none
    | some (kv, rest) =>
      match rest with
      | 44 :: rest2 =>
        match parsePairs fuel rest2 with
        | none => none
        | some (kvs, r) => some (kv :: kvs, r)
      | 125 :: rest2 => some ([kv], rest2)
      | _ => none

/-- Parse a (non-empty) JSON object into its member list. -/
def parseObject (input : List Nat) : Option (List (ByteStr × ByteStr) × List Nat) :=
  match input with
  | 123 :: rest => parsePairs (rest.length + 1) rest
  | _ => none

/-- Extract the six required fields from a member list; unknown members are
ignored, a missing required member fails (`MalformedPayloadError`,
modelled as `none`). -/
def payloadFromPairs (kvs : List (ByteStr × ByteStr)) : Option PaymentPayload :=
  match List.lookup (strBytes "version") kvs, List.lookup (strBytes "paymentId") kvs,
      List.lookup (strBytes "scheme") kvs, List.lookup (strBytes "network") kvs,
      List.lookup (strBytes "transaction") kvs, List.lookup (strBytes "signature") kvs with
  | some version, some paymentId, some scheme, some network, some transaction,
      some signature =>
    some { version := version, paymentId := paymentId, scheme := scheme,
           network := network, transaction := transaction, signature := signature }
  | _, _, _, _, _, _ => none

/-- `JSON.parse` of the payload object: parse, require the input consumed,
and validate the required fields. -/
def decodePayloadBytes (bytes : List Nat) : Option PaymentPayload :=
  match parseObject bytes with
  | some (kvs, []) => payloadFromPairs kvs
  | _ => none

/-- The base64 alphabet: 6-bit value to character code. -/
def sixbitChar (n : Nat) : Nat :=
  if n < 26 then 65 + n
  else if n < 52 then 97 + (n - 26)
  else if n < 62 then 48 + (n - 52)
  else if n = 62 then 43
  else 47

/-- The base64 alphabet, inverted. -/
def charSixbit (c : Nat) : Option Nat :=
  if 65 ≤ c ∧ c ≤ 90 then some (c - 65)
  else if 97 ≤ c ∧ c ≤ 122 then some (26 + (c - 97))
  else if 48 ≤ c ∧ c ≤ 57 then some (52 + (c - 48))
  else if c = 43 then some 62
  else if c = 47 then some 63
  else none

/-- `Buffer.toString("base64")`: encode bytes three at a time, padding with
`=` (61). -/
def b64Encode : List Nat → List Nat
  | [] => []
  | [a] => [sixbitChar (a / 4), sixbitChar (a % 4 * 16), 61, 61]
  | [a, b] => [sixbitChar (a / 4), sixbitChar (a % 4 * 16 + b / 16),
      sixbitChar (b % 16 * 4), 61]
  | a :: b :: c :: t =>
    sixbitChar (a / 4) :: sixbitChar (a % 4 * 16 + b / 16) ::
      sixbitChar (b % 16 * 4 + c / 64) :: sixbitChar (c % 64) :: b64Encode t

/-- `Buffer.from(·, "base64")`: decode four characters at a time, honouring
padding. -/
def b64Decode : List Nat → Option (List Nat)
  | [] => some []
  | c1 :: c2 :: c3 :: c4 :: t =>
    match charSixbit c1, charSixbit c2 with
    | some s1, some s2 =>
      if c3 = 61 then
        if c4 = 61 ∧ t = [] then some [s1 * 4 + s2 / 16] else none
      else
        match charSixbit c3 with
        | some s3 =>
          if c4 = 61 then
            if t = [] then some [s1 * 4 + s2 / 16, s2 % 16 * 16 + s3 / 4]
            else none
          else
            match charSixbit c4, b64Decode t with
            | some s4, some r =>
              some ((s1 * 4 + s2 / 16) :: (s2 % 16 * 16 + s3 / 4) ::
                (s3 % 4 * 64 + s4) :: r)
            | _, _ => none
        | none => none
    | _, _ => none
  | _ => none

/-- The transport header value: base64 of the canonical JSON serialization. -/
def encodePayload (p : PaymentPayload) : List Nat :=
  b64Encode (serializePayload p)

/-- `decodePayload(headerValue)`: base64-decode, then parse and validate;
`none` models `MalformedPayloadError`. -/
def decodePayload (headerValue : List Nat) : Option PaymentPayload :=
  match b64Decode headerValue with
  | some bytes => decodePayloadBytes bytes
  | none => none

/-- All code units of a byte string are single bytes. -/
def BytesLT (l : List Nat) : Prop :=
  ∀ b ∈ l, b < 256

instance (l : List Nat) : Decidable (BytesLT l) :=
  inferInstanceAs (Decidable (∀ b ∈ l, b < 256))

/-- Structural well-formedness of a payload: every field is a genuine byte
string. -/
def PayloadWellFormed (p : PaymentPayload) : Prop :=
  BytesLT p.version ∧ BytesLT p.paymentId ∧ BytesLT p.scheme ∧
    BytesLT p.network ∧ BytesLT p.transaction ∧ BytesLT p.signature

instance (p : PaymentPayload) : Decidable (PayloadWellFormed p) :=
  inferInstanceAs (Decidable (_ ∧ _ ∧ _ ∧ _ ∧ _ ∧ _))

/-! ## Concrete inputs used by witnesses and counterexamples -/

/-- Decimal value of a digit list (least significant first). -/
def ofDecDigits : List Nat → Nat
  | [] => 0
  | d :: ds => d + 10 * ofDecDigits ds

/-- Client options with an explicit cap of two tokens. -/
def cappedOptions : SolPay402ClientOptions :=
  { autoApprove := false, maxPaymentAmount := some 2, preferredToken := "USDC" }

/-- A payment request for three tokens. -/
def bigRequest : PaymentRequest :=
  { amount := 3, token := "USDC", recipient := "merchant", paymentId := "43",
    expiresAt := 1000, description := "" }

/-- Requirements whose expiry (5) is already in the past at time 10. -/
def expiredRequirements : PaymentRequirements :=
  { scheme := strBytes "exact", network := strBytes "solana-mainnet",
    asset := strBytes "USDC", payTo := strBytes "merchant",
    maxAmountRequired := 1000000, resource := strBytes "/premium-data",
    description := strBytes "d", mimeType := strBytes "application/json",
    maxTimeoutSeconds := 30, paymentId := strBytes "A", expiresAt := 5 }

/-- A payload whose `paymentId` does not match `expiredRequirements` but
which would pass every later check. -/
def mismatchedPayload : PaymentPayload :=
  { version := strBytes "1", paymentId := strBytes "B",
    scheme := strBytes "solana-mainnet", network := strBytes "solana-mainnet",
    transaction := strBytes "TX", signature := strBytes "SIG" }

/-- A payload whose `paymentId` matches `expiredRequirements`. -/
def matchingPayload : PaymentPayload :=
  { version := strBytes "1", paymentId := strBytes "A",
    scheme := strBytes "solana-mainnet", network := strBytes "solana-mainnet",
    transaction := strBytes "TX", signature := strBytes "SIG" }

/-- A decoded transfer satisfying `expiredRequirements`. -/
def adequateTransfer : DecodedTransfer :=
  { recipient := strBytes "merchant", asset := strBytes "USDC",
    amount := 1000000 }

/-- A payment header whose recipient is `"merchant"`. -/
def okHeader : X402PaymentHeader :=
  { version := "1.0", paymentId := "1", amount := 1, token := "USDC",
    recipient := "merchant", transaction := "TX", signature := "SIG" }

/-- A decoded transaction with one token-program instruction keyed by
`"merchant"`. -/
def okTransaction : DecodedTransaction :=
  { instructions := [{ programId := TOKEN_PROGRAM_ID, keys := ["merchant"] }] }

/-- A well-formed sample payload for the codec round trip. -/
def samplePayload : PaymentPayload :=
  { version := strBytes "1.0", paymentId := strBytes "pay-42",
    scheme := strBytes "exact", network := strBytes "solana-mainnet",
    transaction := strBytes "AQID\"q\\r", signature := strBytes "c2ln" }

/-! ## Theorems -/

/-- Updating only `page` leaves `totalPages` unchanged. -/
theorem totalPages_set_page (s : PaginationState) (x : Nat) :
    totalPages { s with page := x } = totalPages s := rfl

/-- Claim C10: whenever `page` lies in `[1, totalPages]`, `nextPage` increments it
only when `page < totalPages`, `previousPage` decrements it only when
`page > 1`, `goToPage n` moves only to `n ∈ [1, totalPages]`, and
`changePageSize` always resets `page` to 1; the three navigation operations
keep `page` in `[1, totalPages]`. -/
theorem usePagination_stays_in_range (s : PaginationState) (n m : Nat)
    (h1 : 1 ≤ s.page) (h2 : s.page ≤ totalPages s) :
    (1 ≤ (nextPage s).page ∧ (nextPage s).page ≤ totalPages (nextPage s)) ∧
    ((nextPage s).page = if s.page < totalPages s then s.page + 1 else s.page) ∧
    (1 ≤ (previousPage s).page ∧
      (previousPage s).page ≤ totalPages (previousPage s)) ∧
    ((previousPage s).page = if 1 < s.page then s.page - 1 else s.page) ∧
    (1 ≤ (goToPage s n).page ∧ (goToPage s n).page ≤ totalPages (goToPage s n)) ∧
    ((goToPage s n).page = if 1 ≤ n ∧ n ≤ totalPages s then n else s.page) ∧
    ((changePageSize s m).page = 1) := by
  unfold nextPage previousPage goToPage changePageSize hasNextPage hasPreviousPage
  split_ifs with hn hp hg <;>
    simp_all [totalPages_set_page] <;> omega

/-- Claim C10 witness: the invariant at `page = 2`, `pageSize = 10`,
`total = 35` (so `totalPages = 4`), with `goToPage 3` and
`changePageSize 20`. -/
theorem usePagination_stays_in_range_witness :
    (1 ≤ (nextPage ⟨2, 10, 35⟩).page ∧
      (nextPage ⟨2, 10, 35⟩).page ≤ totalPages (nextPage ⟨2, 10, 35⟩)) ∧
    ((nextPage ⟨2, 10, 35⟩).page =
      if (2 : Nat) < totalPages ⟨2, 10, 35⟩ then 2 + 1 else 2) ∧
    (1 ≤ (previousPage ⟨2, 10, 35⟩).page ∧
      (previousPage ⟨2, 10, 35⟩).page ≤ totalPages (previousPage ⟨2, 10, 35⟩)) ∧
    ((previousPage ⟨2, 10, 35⟩).page = if (1 : Nat) < 2 then 2 - 1 else 2) ∧
    (1 ≤ (goToPage ⟨2, 10, 35⟩ 3).page ∧
      (goToPage ⟨2, 10, 35⟩ 3).page ≤ totalPages (goToPage ⟨2, 10, 35⟩ 3)) ∧
    ((goToPage ⟨2, 10, 35⟩ 3).page =
      if 1 ≤ 3 ∧ 3 ≤ totalPages ⟨2, 10, 35⟩ then 3 else 2) ∧
    ((changePageSize ⟨2, 10, 35⟩ 20).page = 1) :=
  usePagination_stays_in_range ⟨2, 10, 35⟩ 3 20 (by decide) (by decide)

/-- Claim C9: when the amount of the payment request strictly exceeds
`options.maxPaymentAmount` (default `1` when the option is absent), the
fetch wrapper throws; in particular it never reaches the
payment-creation/retry branch, so no payment is created, signed or
submitted and the request is not retried with an `X-PAYMENT` header. -/
theorem fetchWithPayment_spending_cap (opts : SolPay402ClientOptions)
    (sign : String → String) (serializedTx : String) (pr : PaymentRequest)
    (h : resolvedMaxPaymentAmount opts < pr.amount) :
    isThrown (fetchWithPayment opts sign serializedTx 402 (some pr)) = true := by
  simp [fetchWithPayment, h, isThrown]

/-- Claim C9 witness: an explicit cap of 2 with a request for 3 throws. -/
theorem fetchWithPayment_spending_cap_witness :
    isThrown (fetchWithPayment cappedOptions (fun s => s) "tx" 402
      (some bigRequest)) = true :=
  fetchWithPayment_spending_cap cappedOptions (fun s => s) "tx" bigRequest
    (by decide)

/-- Claim C3: `verifyPayment` accepts a confirmed transaction whose only USDC
balance belongs to `"attacker"`, even though the expected receiver is
`"merchant"` — the `receiver` argument is never consulted, so misdirected
payments pass. -/
theorem verifyPayment_accepts_misdirected :
    verifyPayment (fun s => if s = "sig" then some misdirectedMeta else none)
      "sig" (Rat.divInt 1 4) "merchant" = .ok true ∧
    misdirectedMeta.postTokenBalances.all
      (fun b => b.owner != "merchant") = true :=
  ⟨rfl, rfl⟩

/-- `decDigitsAux` ignores the fuel once it is at least `n`. -/
theorem decDigitsAux_fuel (n : Nat) : ∀ f1 f2, n ≤ f1 → n ≤ f2 →
    decDigitsAux f1 n = decDigitsAux f2 n := by
  induction n using Nat.strong_induction_on with
  | _ n ih =>
    intro f1 f2 h1 h2
    cases n with
    | zero => cases f1 <;> cases f2 <;> rfl
    | succ n =>
      cases f1 with
      | zero => omega
      | succ f1 =>
        cases f2 with
        | zero => omega
        | succ f2 =>
          simp only [decDigitsAux]
          congr 1
          exact ih ((n + 1) / 10) (by omega) f1 f2 (by omega) (by omega)

/-- Unfolding equation for `decDigits` on a positive number. -/
theorem decDigits_succ (n : Nat) :
    decDigits (n + 1) = (n + 1) % 10 :: decDigits ((n + 1) / 10) := by
  unfold decDigits
  simp only [decDigitsAux]
  congr 1
  exact decDigitsAux_fuel ((n + 1) / 10) n ((n + 1) / 10) (by omega) (by omega)

/-- `ofDecDigits` recovers the number from its digits. -/
theorem ofDecDigits_decDigits (n : Nat) : ofDecDigits (decDigits n) = n := by
  induction n using Nat.strong_induction_on with
  | _ n ih =>
    cases n with
    | zero => rfl
    | succ n =>
      rw [decDigits_succ]
      simp only [ofDecDigits]
      rw [ih ((n + 1) / 10) (by omega)]
      omega

/-- Decimal digit lists determine the number. -/
theorem decDigits_injective : Function.Injective decDigits :=
  Function.LeftInverse.injective ofDecDigits_decDigits

/-- Every entry of `decDigits n` is a digit. -/
theorem decDigits_lt (n : Nat) : ∀ d ∈ decDigits n, d < 10 := by
  induction n using Nat.strong_induction_on with
  | _ n ih =>
    cases n with
    | zero => intro d hd; simp [decDigits, decDigitsAux] at hd
    | succ n =>
      rw [decDigits_succ]
      intro d hd
      rcases List.mem_cons.mp hd with h | h
      · omega
      · exact ih ((n + 1) / 10) (by omega) d h

/-- `Nat.digitChar` is injective on digits, lifted to lists. -/
theorem map_digitChar_injOn : ∀ l1 l2 : List Nat, (∀ d ∈ l1, d < 10) →
    (∀ d ∈ l2, d < 10) → l1.map Nat.digitChar = l2.map Nat.digitChar →
    l1 = l2 := by
  have key : ∀ a < 10, ∀ b < 10, Nat.digitChar a = Nat.digitChar b → a = b := by
    decide
  intro l1
  induction l1 with
  | nil => intro l2 _ _ h; cases l2 with
    | nil => rfl
    | cons b t2 => simp at h
  | cons a t ih =>
    intro l2 h1 h2 h
    cases l2 with
    | nil => simp at h
    | cons b t2 =>
      simp only [List.map_cons, List.cons.injEq] at h
      have ha : a = b :=
        key a (h1 a (List.mem_cons_self a t)) b (h2 b (List.mem_cons_self b t2)) h.1
      have ht : t = t2 :=
        ih t2 (fun d hd => h1 d (List.mem_cons_of_mem a hd))
          (fun d hd => h2 d (List.mem_cons_of_mem b hd)) h.2
      rw [ha, ht]

/-- Two timestamps with the same decimal string are equal. -/
theorem decimalRepr_injective : Function.Injective decimalRepr := by
  intro m n h
  unfold decimalRepr at h
  have hdata := congrArg String.data h
  simp only [String.data] at hdata
  have hmap : (decDigits m).reverse.map Nat.digitChar =
      (decDigits n).reverse.map Nat.digitChar := hdata
  have hrev : (decDigits m).reverse = (decDigits n).reverse :=
    map_digitChar_injOn _ _
      (fun d hd => decDigits_lt m d (List.mem_reverse.mp hd))
      (fun d hd => decDigits_lt n d (List.mem_reverse.mp hd)) hmap
  exact decDigits_injective (List.reverse_injective hrev)

/-- Claim C7 counterexample: two challenges issued at the same millisecond
(`Date.now() = 100`) — one before a rejection and the re-issued one after —
carry the same `paymentId`, so the `paymentId` of the re-issued challenge is not
distinct from every previously issued one. -/
theorem challenge_same_millisecond_collision :
    (paymentRequiredChallenge 1 "USDC" "merchant" "svc" 100).paymentId ∈
      [100].map (fun t =>
        (paymentRequiredChallenge 1 "USDC" "merchant" "svc" t).paymentId) := by
  simp

/-- Claim C7 (amended): provided the issuing clock has strictly advanced past
every earlier issuance time, the `paymentId` of the next challenge
(`Date.now().toString()`) differs from every previously issued one. -/
theorem challenge_fresh_paymentId (amount : Rat)
    (token merchant description : String) (issued : List Nat) (now : Nat)
    (h : ∀ t ∈ issued, t < now) :
    (paymentRequiredChallenge amount token merchant description now).paymentId ∉
      issued.map (fun t =>
        (paymentRequiredChallenge amount token merchant description t).paymentId) := by
  intro hmem
  rcases List.mem_map.mp hmem with ⟨t, ht, heq⟩
  have hteq : t = now := by
    apply decimalRepr_injective
    simpa [paymentRequiredChallenge] using heq
  have hlt := h t ht
  omega

/-- Claim C7 witness: challenges issued at times 3 and 5, re-issue at time 9. -/
theorem challenge_fresh_paymentId_witness :
    (paymentRequiredChallenge 1 "USDC" "merchant" "svc" 9).paymentId ∉
      [3, 5].map (fun t =>
        (paymentRequiredChallenge 1 "USDC" "merchant" "svc" t).paymentId) :=
  challenge_fresh_paymentId 1 "USDC" "merchant" "svc" [3, 5] 9 (by decide)

/-- Claim C4: the facilitator hands a transaction to the ledger only when the
transaction carried by the header decoded successfully and `verifyTransaction` accepted
it — settlement is never invoked for a request cycle whose verification
failed or was skipped. -/
theorem settle_only_if_verified (decodeTransaction : String → Option DecodedTransaction)
    (sendTransaction : DecodedTransaction → Option String) (now : Nat)
    (header : X402PaymentHeader) (tx : DecodedTransaction)
    (hmem : tx ∈ (verifyAndSettlePayment decodeTransaction sendTransaction now
      header).2) :
    decodeTransaction header.transaction = some tx ∧
    verifyTransaction tx header = true := by
  unfold verifyAndSettlePayment at hmem
  cases hd : decodeTransaction header.transaction with
  | none => rw [hd] at hmem; simp at hmem
  | some t =>
    rw [hd] at hmem
    by_cases hv : verifyTransaction t header
    · simp only [hv, if_true] at hmem
      cases hs : sendTransaction t <;> rw [hs] at hmem <;>
        simp only [List.mem_singleton] at hmem <;> subst hmem <;> exact ⟨rfl, hv⟩
    · simp [hv] at hmem

/-- Claim C4 witness: a decodable, verifiable header actually reaches the ledger. -/
theorem settle_only_if_verified_witness :
    (fun _ : String => some okTransaction) okHeader.transaction =
      some okTransaction ∧
    verifyTransaction okTransaction okHeader = true :=
  settle_only_if_verified (fun _ => some okTransaction) (fun _ => some "sig")
    5 okHeader okTransaction (by decide)

/-- A store that has consumed `paymentId` yields no further successful
receipts, and the store never changes again. -/
theorem settleRun_consumed (store : ReplayStore) (networkId pid : String)
    (attempts : List (LedgerOutcome × Nat))
    (h : hasConsumed store pid = true) :
    ((settleRun store networkId pid attempts).1.countP
      (fun r => r.success)) = 0 ∧
    (settleRun store networkId pid attempts).2 = store := by
  induction attempts generalizing store with
  | nil => simp [settleRun]
  | cons a rest ih =>
    obtain ⟨outcome, now⟩ := a
    cases outcome <;>
      simp [settleRun, settle, tryConsume, h, List.countP_cons, ih store h]

/-- A fresh store yields at most one successful receipt across a run. -/
theorem settleRun_at_most_once (store : ReplayStore) (networkId pid : String)
    (attempts : List (LedgerOutcome × Nat))
    (h : hasConsumed store pid = false) :
    ((settleRun store networkId pid attempts).1.countP
      (fun r => r.success)) ≤ 1 := by
  induction attempts generalizing store with
  | nil => simp [settleRun]
  | cons a rest ih =>
    obtain ⟨outcome, now⟩ := a
    cases outcome with
    | finalized ref confirmedAt =>
      have htc : tryConsume store pid ref now =
          (true, (pid, ⟨now, ref⟩) :: store) := by
        simp [tryConsume, h]
      have hc : hasConsumed ((pid, (⟨now, ref⟩ : ReplayRecord)) :: store) pid
          = true := by
        simp [hasConsumed, List.lookup]
      have hz := (settleRun_consumed ((pid, ⟨now, ref⟩) :: store) networkId pid
        rest hc).1
      simp [settleRun, settle, htc, List.countP_cons, hz]
    | timeout =>
      simpa [settleRun, settle, List.countP_cons] using ih store h
    | rejected =>
      simpa [settleRun, settle, List.countP_cons] using ih store h

/-- Claim C1: for a `paymentId` not yet consumed, the first
`tryConsume` returns `true`; every later `tryConsume` for the same
`paymentId` returns `false`; and across any sequence of settle attempts for
that `paymentId` at most one receipt has `success = true`. -/
theorem tryConsume_exactly_once (store : ReplayStore)
    (pid transactionReference networkId : String) (now : Nat)
    (attempts : List (LedgerOutcome × Nat))
    (hnew : hasConsumed store pid = false) :
    (tryConsume store pid transactionReference now).1 = true ∧
    (∀ ref2 now2,
      (tryConsume (tryConsume store pid transactionReference now).2 pid
        ref2 now2).1 = false) ∧
    ((settleRun store networkId pid attempts).1.countP
      (fun r => r.success)) ≤ 1 := by
  refine ⟨by simp [tryConsume, hnew], ?_, settleRun_at_most_once store
    networkId pid attempts hnew⟩
  intro ref2 now2
  have h2 : (List.lookup pid store).isSome = false := by
    simpa [hasConsumed] using hnew
  simp [tryConsume, hasConsumed, h2, List.lookup]

/-- Claim C1 witness: two finalized settle attempts against an empty store. -/
theorem tryConsume_exactly_once_witness :
    (tryConsume [] "p" "sig" 3).1 = true ∧
    (∀ ref2 now2,
      (tryConsume (tryConsume [] "p" "sig" 3).2 "p" ref2 now2).1 = false) ∧
    ((settleRun [] "solana-mainnet" "p"
      [(.finalized "sig" 4, 5), (.finalized "sig2" 6, 7)]).1.countP
      (fun r => r.success)) ≤ 1 :=
  tryConsume_exactly_once [] "p" "sig" "solana-mainnet" 3
    [(.finalized "sig" 4, 5), (.finalized "sig2" 6, 7)] (by decide)

/-- Claim C5: on ledger timeout `settle` returns `success = false` with
`SettlementTimeout` and leaves the Replay Guard untouched, so the
`paymentId` stays unconsumed and a retry remains possible; likewise a
ledger-level rejection returns `SettlementRejected` without consuming. -/
theorem settle_timeout_and_rejected (store : ReplayStore)
    (networkId pid : String) (now : Nat) :
    settle store networkId pid now .timeout =
      ({ success := false, transactionReference := none,
         networkId := networkId, confirmedAt := none,
         error := some "SettlementTimeout" }, store) ∧
    settle store networkId pid now .rejected =
      ({ success := false, transactionReference := none,
         networkId := networkId, confirmedAt := none,
         error := some "SettlementRejected" }, store) ∧
    hasConsumed (settle store networkId pid now .timeout).2 pid =
      hasConsumed store pid ∧
    hasConsumed (settle store networkId pid now .rejected).2 pid =
      hasConsumed store pid :=
  ⟨rfl, rfl, rfl, rfl⟩

/-- Claim C6 counterexample: a payload whose `requirements.expiresAt` (5) is past
at `now = 10` is rejected with `MismatchedPaymentId`, not `Expired`, when
its `paymentId` does not match — even though every later check (scheme,
amount, signature, replay) would have passed — because the paymentId check
runs first. -/
theorem verify_expired_counterexample :
    expiredRequirements.expiresAt ≤ 10 ∧
    verify (fun _ => some adequateTransfer) (fun _ => true) (fun _ => false)
      10 mismatchedPayload expiredRequirements =
      .invalid .MismatchedPaymentId :=
  ⟨by decide, rfl⟩

/-- Claim C6 (amended): a payload whose `paymentId` matches the requirements and
whose `expiresAt` is at or before the current time is rejected with
`Expired`, regardless of whether the scheme, amount, signature and replay
checks would have passed. -/
theorem verify_expired (decodeTx : ByteStr → Option DecodedTransfer)
    (validSignature : PaymentPayload → Bool) (consumed : ByteStr → Bool)
    (now : Nat) (payload : PaymentPayload) (req : PaymentRequirements)
    (hpid : payload.paymentId = req.paymentId)
    (hexp : req.expiresAt ≤ now) :
    verify decodeTx validSignature consumed now payload req =
      .invalid .Expired := by
  unfold verify
  rw [if_pos hpid, if_neg (by omega)]

/-- Claim C6 witness: a matching payload against `expiredRequirements` at time 10
is rejected as `Expired` even though all later checks would pass. -/
theorem verify_expired_witness :
    verify (fun _ => some adequateTransfer) (fun _ => true) (fun _ => false)
      10 matchingPayload expiredRequirements = .invalid .Expired :=
  verify_expired (fun _ => some adequateTransfer) (fun _ => true)
    (fun _ => false) 10 matchingPayload expiredRequirements (by decide)
    (by decide)

set_option maxHeartbeats 1000000 in
/-- Claim C2: the verifier performs its six checks in the stated order with
short-circuit on the first failure. -/
theorem verify_checks_in_order (decodeTx : ByteStr → Option DecodedTransfer)
    (validSignature : PaymentPayload → Bool) (consumed : ByteStr → Bool)
    (now : Nat) (payload : PaymentPayload) (req : PaymentRequirements) :
    (verify decodeTx validSignature consumed now payload req =
        .invalid .MismatchedPaymentId ↔ payload.paymentId ≠ req.paymentId) ∧
    (verify decodeTx validSignature consumed now payload req =
        .invalid .Expired ↔
      payload.paymentId = req.paymentId ∧ ¬ now < req.expiresAt) ∧
    (verify decodeTx validSignature consumed now payload req =
        .invalid .UnsupportedScheme ↔
      payload.paymentId = req.paymentId ∧ now < req.expiresAt ∧
      ¬ (payload.network = req.network ∧ payload.scheme = req.network)) ∧
    (verify decodeTx validSignature consumed now payload req =
        .invalid .InsufficientOrMisdirectedPayment ↔
      payload.paymentId = req.paymentId ∧ now < req.expiresAt ∧
      (payload.network = req.network ∧ payload.scheme = req.network) ∧
      ¬ TransferOk decodeTx payload req) ∧
    (verify decodeTx validSignature consumed now payload req =
        .invalid .InvalidSignature ↔
      payload.paymentId = req.paymentId ∧ now < req.expiresAt ∧
      (payload.network = req.network ∧ payload.scheme = req.network) ∧
      TransferOk decodeTx payload req ∧ validSignature payload = false) ∧
    (verify decodeTx validSignature consumed now payload req =
        .invalid .ReplayDetected ↔
      payload.paymentId = req.paymentId ∧ now < req.expiresAt ∧
      (payload.network = req.network ∧ payload.scheme = req.network) ∧
      TransferOk decodeTx payload req ∧ validSignature payload = true ∧
      consumed payload.paymentId = true) ∧
    (verify decodeTx validSignature consumed now payload req = .valid ↔
      payload.paymentId = req.paymentId ∧ now < req.expiresAt ∧
      (payload.network = req.network ∧ payload.scheme = req.network) ∧
      TransferOk decodeTx payload req ∧ validSignature payload = true ∧
      consumed payload.paymentId = false) := by
  by_cases h1 : payload.paymentId = req.paymentId <;>
    by_cases h2 : now < req.expiresAt <;>
    by_cases h3 : payload.network = req.network ∧ payload.scheme = req.network
  all_goals (
    cases hd : decodeTx payload.transaction with
    | none => simp [verify, TransferOk, hd, h1, h2, h3]
    | some t =>
      by_cases h4 : t.recipient = req.payTo ∧ t.asset = req.asset ∧
          req.maxAmountRequired ≤ t.amount
      · cases h5 : validSignature payload <;>
          cases h6 : consumed req.paymentId <;>
          simp [verify, TransferOk, hd, h1, h2, h3, h4, h5, h6]
      · cases h5 : validSignature payload <;>
          cases h6 : consumed req.paymentId <;>
          simp [verify, TransferOk, hd, h1, h2, h3, h4, h5, h6])

/-- Parsing undoes escaping: the string body parser consumes the escaped
bytes up to the closing quote and returns the original bytes. -/
theorem parseStrBody_escapeBytes (s : ByteStr) (rest : List Nat) :
    parseStrBody (escapeBytes s ++ 34 :: rest) = some (s, rest) := by
  induction s generalizing rest with
  | nil => simp [escapeBytes, parseStrBody]
  | cons c t ih =>
    by_cases hc : c = 34 ∨ c = 92
    · simp [escapeBytes, hc, parseStrBody, ih]
    · push_neg at hc
      simp [escapeBytes, show ¬(c = 34 ∨ c = 92) from by tauto,
        parseStrBody, hc.1, hc.2, ih]

/-- Parsing a serialized string literal returns the string and the suffix. -/
theorem parseStr_serializeStr (s : ByteStr) (rest : List Nat) :
    parseStr (serializeStr s ++ rest) = some (s, rest) := by
  simp [serializeStr, parseStr, parseStrBody_escapeBytes]

/-- Parsing a serialized member returns the pair and the suffix. -/
theorem parsePair_serializePair (k v : ByteStr) (rest : List Nat) :
    parsePair (serializePair k v ++ rest) = some ((k, v), rest) := by
  simp [serializePair, parsePair, parseStr_serializeStr]

/-- A serialized member list is at least as long as the member count. -/
theorem serializePairs_length (ps : List (ByteStr × ByteStr)) (k v : ByteStr) :
    ps.length + 1 ≤ (serializePairs ((k, v) :: ps)).length := by
  induction ps generalizing k v with
  | nil => simp [serializePairs, serializePair, serializeStr]
  | cons p ps2 ih =>
    obtain ⟨k2, v2⟩ := p
    have h2 := ih k2 v2
    simp only [serializePairs, List.length_append, List.length_cons]
    omega

/-- Parsing a serialized member list, given enough fuel, returns the members
and the suffix after the closing brace. -/
theorem parsePairs_serializePairs (ps : List (ByteStr × ByteStr))
    (k v : ByteStr) (fuel : Nat) (rest : List Nat)
    (hfuel : ps.length + 1 ≤ fuel) :
    parsePairs fuel (serializePairs ((k, v) :: ps) ++ 125 :: rest) =
      some ((k, v) :: ps, rest) := by
  induction ps generalizing k v fuel rest with
  | nil =>
    cases fuel with
    | zero => omega
    | succ f =>
      simp [serializePairs, parsePairs, parsePair_serializePair]
  | cons p ps2 ih =>
    obtain ⟨k2, v2⟩ := p
    cases fuel with
    | zero => omega
    | succ f =>
      have hr := ih k2 v2 f rest (by simp at hfuel ⊢; omega)
      simp only [serializePairs, List.append_assoc, List.cons_append]
      simp [parsePairs, parsePair_serializePair, hr]

/-- `JSON.parse` recovers the payload from its canonical serialization. -/
theorem decodePayloadBytes_serializePayload (p : PaymentPayload) :
    decodePayloadBytes (serializePayload p) = some p := by
  have hlen := serializePairs_length
    [(strBytes "paymentId", p.paymentId), (strBytes "scheme", p.scheme),
     (strBytes "network", p.network), (strBytes "transaction", p.transaction),
     (strBytes "signature", p.signature)] (strBytes "version") p.version
  have hp := parsePairs_serializePairs
    [(strBytes "paymentId", p.paymentId), (strBytes "scheme", p.scheme),
     (strBytes "network", p.network), (strBytes "transaction", p.transaction),
     (strBytes "signature", p.signature)] (strBytes "version") p.version
    ((serializePairs (payloadFields p) ++ [125]).length + 1) []
    (by simp only [payloadFields] at hlen ⊢
        simp only [List.length_cons, List.length_append] at hlen ⊢
        omega)
  simp only [decodePayloadBytes, parseObject, serializePayload, payloadFields]
    at hp ⊢
  rw [show (125 : Nat) :: ([] : List Nat) = [125] from rfl] at hp
  rw [hp]
  rfl

/-- The base64 alphabet inverts on 6-bit values. -/
theorem charSixbit_sixbitChar : ∀ n, n < 64 →
    charSixbit (sixbitChar n) = some n := by
  decide

/-- No alphabet character is the padding character `=` (61). -/
theorem sixbitChar_ne_pad : ∀ n, n < 64 → sixbitChar n ≠ 61 := by
  decide

/-- Base64 decoding inverts encoding on byte strings. -/
theorem b64Decode_b64Encode : ∀ bs : List Nat, BytesLT bs →
    b64Decode (b64Encode bs) = some bs
  | [] => fun _ => rfl
  | [a] => fun h => by
    have ha : a < 256 := h a (by simp)
    have e1 := charSixbit_sixbitChar (a / 4) (by omega)
    have e2 := charSixbit_sixbitChar (a % 4 * 16) (by omega)
    simp [b64Encode, b64Decode, e1, e2]
    omega
  | [a, b] => fun h => by
    have ha : a < 256 := h a (by simp)
    have hb : b < 256 := h b (by simp)
    have e1 := charSixbit_sixbitChar (a / 4) (by omega)
    have e2 := charSixbit_sixbitChar (a % 4 * 16 + b / 16) (by omega)
    have e3 := charSixbit_sixbitChar (b % 16 * 4) (by omega)
    have n3 := sixbitChar_ne_pad (b % 16 * 4) (by omega)
    simp [b64Encode, b64Decode, e1, e2, e3, n3]
    omega
  | a :: b :: c :: t => fun h => by
    have ha : a < 256 := h a (by simp)
    have hb : b < 256 := h b (by simp)
    have hc : c < 256 := h c (by simp)
    have ht : BytesLT t := fun x hx => h x (by simp [hx])
    have e1 := charSixbit_sixbitChar (a / 4) (by omega)
    have e2 := charSixbit_sixbitChar (a % 4 * 16 + b / 16) (by omega)
    have e3 := charSixbit_sixbitChar (b % 16 * 4 + c / 64) (by omega)
    have e4 := charSixbit_sixbitChar (c % 64) (by omega)
    have n3 := sixbitChar_ne_pad (b % 16 * 4 + c / 64) (by omega)
    have n4 := sixbitChar_ne_pad (c % 64) (by omega)
    have rec := b64Decode_b64Encode t ht
    simp [b64Encode, b64Decode, e1, e2, e3, e4, n3, n4, rec]
    refine ⟨by omega, by omega, by omega⟩

/-- Escaping only inserts backslashes. -/
theorem escapeBytes_mem (s : ByteStr) (b : Nat) (hb : b ∈ escapeBytes s) :
    b = 92 ∨ b ∈ s := by
  induction s with
  | nil => simp [escapeBytes] at hb
  | cons c t ih =>
    by_cases hc : c = 34 ∨ c = 92 <;>
      simp only [escapeBytes, hc, if_true, if_false, List.mem_cons] at hb <;>
      rcases hb with h | h <;> simp_all <;> tauto

/-- A serialized string literal stays within bytes. -/
theorem serializeStr_lt (s : ByteStr) (hs : BytesLT s) :
    BytesLT (serializeStr s) := by
  intro b hb
  simp only [serializeStr, List.mem_cons, List.mem_append,
    List.mem_singleton] at hb
  have key : b = 34 ∨ b = 92 ∨ b ∈ s := by
    rcases hb with h | h
    · tauto
    · rcases h with h | h
      · rcases escapeBytes_mem s b h with h2 | h2 <;> tauto
      · tauto
  rcases key with rfl | rfl | h
  · omega
  · omega
  · exact hs b h

/-- A serialized member stays within bytes. -/
theorem serializePair_lt (k v : ByteStr) (hk : BytesLT k) (hv : BytesLT v) :
    BytesLT (serializePair k v) := by
  intro b hb
  simp only [serializePair, List.mem_append, List.mem_cons] at hb
  rcases hb with h | h | h
  · exact serializeStr_lt k hk b h
  · omega
  · exact serializeStr_lt v hv b h

/-- A serialized member list stays within bytes. -/
theorem serializePairs_lt (ps : List (ByteStr × ByteStr))
    (hp : ∀ kv ∈ ps, BytesLT kv.1 ∧ BytesLT kv.2) :
    BytesLT (serializePairs ps) := by
  induction ps with
  | nil => intro b hb; simp [serializePairs] at hb
  | cons kv ps2 ih =>
    obtain ⟨k, v⟩ := kv
    have hk := (hp (k, v) (by simp)).1
    have hv := (hp (k, v) (by simp)).2
    cases ps2 with
    | nil =>
      simpa [serializePairs] using serializePair_lt k v hk hv
    | cons kv2 ps3 =>
      intro b hb
      simp only [serializePairs, List.mem_append, List.mem_cons] at hb
      rcases hb with h | h | h
      · exact serializePair_lt k v hk hv b h
      · omega
      · exact ih (fun x hx => hp x (by simp [hx])) b h

/-- The serialization of a well-formed payload is a byte string. -/
theorem serializePayload_lt (p : PaymentPayload) (h : PayloadWellFormed p) :
    BytesLT (serializePayload p) := by
  obtain ⟨h1, h2, h3, h4, h5, h6⟩ := h
  have hp : ∀ kv ∈ payloadFields p, BytesLT kv.1 ∧ BytesLT kv.2 := by
    intro kv hkv
    simp only [payloadFields, List.mem_cons, List.mem_singleton,
      List.not_mem_nil, or_false] at hkv
    rcases hkv with rfl | rfl | rfl | rfl | rfl | rfl
    · exact ⟨(by decide : BytesLT (strBytes "version")), h1⟩
    · exact ⟨(by decide : BytesLT (strBytes "paymentId")), h2⟩
    · exact ⟨(by decide : BytesLT (strBytes "scheme")), h3⟩
    · exact ⟨(by decide : BytesLT (strBytes "network")), h4⟩
    · exact ⟨(by decide : BytesLT (strBytes "transaction")), h5⟩
    · exact ⟨(by decide : BytesLT (strBytes "signature")), h6⟩
  intro b hb
  simp only [serializePayload, List.mem_cons, List.mem_append,
    List.mem_singleton] at hb
  have key : b = 123 ∨ b = 125 ∨ b ∈ serializePairs (payloadFields p) := by
    tauto
  rcases key with rfl | rfl | hmem
  · omega
  · omega
  · exact serializePairs_lt (payloadFields p) hp b hmem

/-- Claim C8: decoding inverts encoding — for every structurally well-formed
`PaymentPayload`, base64-decoding the transport header value and parsing the
canonical JSON object returns exactly the original payload (unknown members
are ignored by the decoder, required members are validated). -/
theorem decodePayload_encodePayload (p : PaymentPayload)
    (h : PayloadWellFormed p) :
    decodePayload (encodePayload p) = some p := by
  unfold decodePayload encodePayload
  rw [b64Decode_b64Encode (serializePayload p) (serializePayload_lt p h)]
  exact decodePayloadBytes_serializePayload p

/-- Claim C8 witness: the round trip on a concrete payload containing a quote and
a backslash. -/
theorem decodePayload_encodePayload_witness :
    decodePayload (encodePayload samplePayload) = some samplePayload :=
  decodePayload_encodePayload samplePayload (by decide)
